import Mathlib

/-!
Verification of the SafeCity dashboard (src/app.py).

The file shallowly embeds the data model and the data-transforming parts of
the app: the two data loaders (`load_crime_data`, `load_geojson`), the
wide-to-long reshaper (`melt_crime_data`), the placeholder-figure helper
(`empty_figure`), the heatmap callback (`update_heatmap`), and the combined
graphs/dropdown callback (`update_graphs_and_dropdown`), together with a
small step semantics for the selection-driven UI.

Pandas dataframes are embedded as typed Lean structures: a wide-format table
is a list of month labels plus rows carrying one count per month column; the
long format is a list of records.  Plotly figures are embedded by the data
series they carry; layout and styling are irrelevant to every claim and are
not modelled.  `dash.no_update` is the `noUpdate` constructor of `Upd`.
-/

/-- A row of the raw CSV before the rename applied by `load_crime_data`
(columns `MajorText`/`MinorText`). `counts` is aligned with the month
columns of the table the row belongs to. -/
structure RawWideRow where
  BoroughName : String
  MajorText : String
  MinorText : String
  counts : List Int
deriving DecidableEq

/-- The raw wide-format CSV: month column labels plus data rows. -/
structure RawWideTable where
  months : List String
  rows : List RawWideRow
deriving DecidableEq

/-- A wide-format row after the rename of `MajorText`/`MinorText` to
`MajorCrimeCategory`/`CrimeSubcategory`. -/
structure WideRow where
  BoroughName : String
  MajorCrimeCategory : String
  CrimeSubcategory : String
  counts : List Int
deriving DecidableEq

/-- The wide-format table handed to `melt_crime_data`: identifier columns
`BoroughName`, `MajorCrimeCategory`, `CrimeSubcategory`; every remaining
column is a month. -/
structure WideTable where
  months : List String
  rows : List WideRow
deriving DecidableEq

/-- A wide table is well formed when every row has exactly one count per
month column. -/
def WideTable.valid (t : WideTable) : Prop :=
  ∀ r ∈ t.rows, r.counts.length = t.months.length

instance (t : WideTable) : Decidable t.valid :=
  List.decidableBAll _ t.rows

/-- One row of the long-format table produced by the melt. -/
structure LongRow where
  BoroughName : String
  MajorCrimeCategory : String
  CrimeSubcategory : String
  Month : String
  CrimeCount : Int
deriving DecidableEq

/-- The column rename performed inside `load_crime_data`:
`MajorText ↦ MajorCrimeCategory`, `MinorText ↦ CrimeSubcategory`. -/
def renameColumns (r : RawWideRow) : WideRow :=
  ⟨r.BoroughName, r.MajorText, r.MinorText, r.counts⟩

/-- The Python exceptions relevant to the two loaders. -/
inductive PyError
  | fileNotFound
  | emptyData
  | jsonDecode
deriving DecidableEq

/-- The states the crime CSV file can be in. -/
inductive CsvFileState
  | present (t : RawWideTable)
  | absent
  | empty
deriving DecidableEq

/-- `pandas.read_csv`: parses a present file, raises `FileNotFoundError` on a
missing file and `pandas.errors.EmptyDataError` on an empty one. -/
def pdReadCsv : CsvFileState → Except PyError RawWideTable
  | .present t => .ok t
  | .absent => .error .fileNotFound
  | .empty => .error .emptyData

/-- `load_crime_data` (src/app.py lines 21-47): reads the CSV, renames the
category columns, and catches `FileNotFoundError` and `EmptyDataError`,
returning `None` for both.  Any other exception would propagate
(`Except.error`). -/
def load_crime_data (f : CsvFileState) : Except PyError (Option WideTable) :=
  match pdReadCsv f with
  | .ok t => .ok (some ⟨t.months, t.rows.map renameColumns⟩)
  | .error .fileNotFound => .ok none
  | .error .emptyData => .ok none
  | .error e => .error e

/-- The boundary GeoJSON, embedded by the borough names its features carry;
geometry is irrelevant to every claim. -/
structure GeoJson where
  names : List String
deriving DecidableEq

/-- The states the GeoJSON file can be in. -/
inductive GeoFileState
  | present (g : GeoJson)
  | absent
  | empty
deriving DecidableEq

/-- `open` + `json.load`: parses a present file, raises `FileNotFoundError`
on a missing file, and `json.JSONDecodeError` on an empty one (empty input is
not valid JSON). -/
def jsonLoad : GeoFileState → Except PyError GeoJson
  | .present g => .ok g
  | .absent => .error .fileNotFound
  | .empty => .error .jsonDecode

/-- `load_geojson` (src/app.py lines 51-67): reads and parses the GeoJSON.
Only `FileNotFoundError` is caught (returning `None`); every other exception,
in particular the `JSONDecodeError` raised on an empty file, propagates. -/
def load_geojson (f : GeoFileState) : Except PyError (Option GeoJson) :=
  match jsonLoad f with
  | .ok g => .ok (some g)
  | .error .fileNotFound => .ok none
  | .error e => .error e

/-- The long rows produced by melting a (non-`None`) wide table, in pandas
order: `df.melt` stacks one block per value column (month), each block
listing every wide row.  The count is that row's entry for that month
column. -/
def meltRows (t : WideTable) : List LongRow :=
  t.months.enum.flatMap fun p =>
    t.rows.map fun r =>
      ⟨r.BoroughName, r.MajorCrimeCategory, r.CrimeSubcategory, p.2, r.counts.getD p.1 0⟩

/-- `melt_crime_data` (src/app.py lines 75-91): melts the wide table with
identifier columns `BoroughName`, `MajorCrimeCategory`, `CrimeSubcategory`;
if the input is `None` it is returned unchanged. -/
def melt_crime_data : Option WideTable → Option (List LongRow)
  | some t => some (meltRows t)
  | none => none

/-- A figure, embedded by the data it carries: either the placeholder built
by `empty_figure` (its annotation/title message) or a choropleth over
per-borough totals. -/
inductive HeatmapFigure
  | placeholderFig (message : String)
  | choropleth (data : List (String × Int))
deriving DecidableEq

/-- `empty_figure` (src/app.py lines 95-119): an empty figure showing
`message`; the default message is `No data available`. -/
def empty_figure (message : String := "No data available") : HeatmapFigure :=
  .placeholderFig message

/-- First-occurrence deduplication with an accumulator of already-seen keys:
the embedding of `pandas.Series.unique` (and of the set of group keys of
`groupby`, whose output order the claims do not mention). -/
def uniqueAux : List String → List String → List String
  | _, [] => []
  | seen, x :: xs => if x ∈ seen then uniqueAux seen xs else x :: uniqueAux (x :: seen) xs

/-- The distinct values of a list, first occurrences kept. -/
def uniqueList (l : List String) : List String :=
  uniqueAux [] l

/-- `df.groupby(key)["CrimeCount"].sum().reset_index()`: one entry per
distinct key value, carrying the sum of `CrimeCount` over the rows with that
key.  (pandas emits groups in sorted key order; the claims only concern
which groups exist and their totals, so first-occurrence order is used.) -/
def groupSumBy (key : LongRow → String) (df : List LongRow) : List (String × Int) :=
  (uniqueList (df.map key)).map fun k =>
    (k, ((df.filter fun r => key r == k).map fun r => r.CrimeCount).sum)

/-- `update_heatmap` (src/app.py lines 241-270): if either dataset is `None`
it returns `empty_figure("Error: No data available")`; otherwise it groups
the long table by `BoroughName`, sums `CrimeCount`, and renders the summary
as a choropleth over the GeoJSON. -/
def update_heatmap (crime_df : Option (List LongRow)) (geojson_data : Option GeoJson)
    (n_clicks : Nat) : HeatmapFigure :=
  match n_clicks, crime_df, geojson_data with
  | _, some df, some _gj => .choropleth (groupSumBy (fun r => r.BoroughName) df)
  | _, _, _ => empty_figure ("Error: No data available")

/-- CSS display of a container: `display: block` or `display: none`. -/
inductive Display
  | block
  | hidden
deriving DecidableEq

/-- A Dash output slot: either `dash.no_update` or a new value. -/
inductive Upd (α : Type)
  | noUpdate
  | set (a : α)
deriving DecidableEq

/-- The eight outputs of `update_graphs_and_dropdown`, in source order.
Figures are embedded by their data: trend and pie by their grouped
(label, total) pairs, the breakdown by the rows handed to `px.line`
(`px.line()` with no data is the empty list). -/
structure CallbackOutput where
  containerStyle : Display
  trendFig : Upd (List (String × Int))
  pieFig : Upd (List (String × Int))
  pieStyle : Display
  breakdownFig : Upd (List LongRow)
  majorOptions : List String
  dropdownStyle : Display
  dropdownValue : Upd (Option String)
deriving DecidableEq

/-- Python truthiness of an optional string: `None` and `""` are falsy. -/
def truthy : Option String → Bool
  | none => false
  | some s => !(s == "")

/-- The tuple returned on the guard path (src/app.py lines 301-311). -/
def guardOutput : CallbackOutput :=
  { containerStyle := .hidden, trendFig := .noUpdate, pieFig := .noUpdate,
    pieStyle := .hidden, breakdownFig := .noUpdate, majorOptions := [],
    dropdownStyle := .hidden, dropdownValue := .noUpdate }

/-- `update_graphs_and_dropdown` (src/app.py lines 288-387).  Guard: button
never clicked, data missing, or no truthy borough selection.  Otherwise the
table is filtered to the selected borough; the trend groups by month, the
pie by major category; the breakdown filters further by the selected major
category when one is truthy and is `px.line()` (no data) otherwise; the
dropdown options are the distinct major categories of the filtered rows and
the dropdown value is reset to `None`. -/
def update_graphs_and_dropdown (crime_df : Option (List LongRow)) (n_clicks : Nat)
    (selected_major_crime : Option String) (selected_borough : Option String) :
    CallbackOutput :=
  if n_clicks = 0 ∨ crime_df = none ∨ truthy selected_borough = false then
    guardOutput
  else
    let df := crime_df.getD []
    let borough := selected_borough.getD ("")
    let filtered_df := df.filter fun r => r.BoroughName == borough
    let trend_fig := groupSumBy (fun r => r.Month) filtered_df
    let pie_chart_fig := groupSumBy (fun r => r.MajorCrimeCategory) filtered_df
    let breakdown_fig :=
      if truthy selected_major_crime then
        filtered_df.filter fun r => r.MajorCrimeCategory == selected_major_crime.getD ("")
      else []
    let major_crime_options := uniqueList (filtered_df.map fun r => r.MajorCrimeCategory)
    { containerStyle := .block, trendFig := .set trend_fig, pieFig := .set pie_chart_fig,
      pieStyle := .block, breakdownFig := .set breakdown_fig,
      majorOptions := major_crime_options, dropdownStyle := .block,
      dropdownValue := .set none }

/-- The selection-driven UI state: the click count, the borough dropdown
value (a Dash `State` of the callback), and the major-category dropdown
value (a Dash `Input` of the callback). -/
structure UIState where
  n_clicks : Nat
  borough : Option String
  category : Option String
deriving DecidableEq

/-- User events on the dashboard. -/
inductive UIEvent
  | selectBorough (b : Option String)
  | selectCategory (c : Option String)
  | clickButton
deriving DecidableEq

/-- Applying a callback output to the UI: the `major-crime-selection.value`
output slot overwrites the category unless it is `dash.no_update`. -/
def applyOutput (s : UIState) (out : CallbackOutput) : UIState :=
  { s with category := match out.dropdownValue with
      | .noUpdate => s.category
      | .set v => v }

/-- One step of the UI.  Changing the borough fires no callback, because
`borough-selection.value` is only a `State` of `update_graphs_and_dropdown`;
clicking the button and changing the category are `Input`s and fire it. -/
def uiStep (crime_df : Option (List LongRow)) (s : UIState) : UIEvent → UIState
  | .selectBorough b => { s with borough := b }
  | .clickButton =>
      let s1 : UIState := { s with n_clicks := s.n_clicks + 1 }
      applyOutput s1 (update_graphs_and_dropdown crime_df s1.n_clicks s1.category s1.borough)
  | .selectCategory c =>
      let s1 : UIState := { s with category := c }
      applyOutput s1 (update_graphs_and_dropdown crime_df s1.n_clicks c s1.borough)

/-- Run a list of events from a state. -/
def uiRun (crime_df : Option (List LongRow)) (s : UIState) (events : List UIEvent) : UIState :=
  events.foldl (uiStep crime_df) s

/-- The initial UI state: button never clicked, nothing selected. -/
def initState : UIState :=
  ⟨0, none, none⟩

/-! ### Concrete data for witnesses and counterexamples -/

/-- A small long-format table used in witnesses. -/
def demoDf : List LongRow :=
  [⟨"A", "Theft", "Shoplifting", "2023-01", 5⟩,
   ⟨"A", "Drugs", "Possession", "2023-01", 3⟩,
   ⟨"B", "Theft", "Robbery", "2023-01", 4⟩]

/-- A small boundary dataset used in witnesses. -/
def demoGeo : GeoJson :=
  ⟨["A", "B"]⟩

/-- A small valid wide-format table used in witnesses. -/
def demoWide : WideTable :=
  ⟨["2023-01", "2023-02"],
   [⟨"A", "Theft", "Shoplifting", [5, 7]⟩,
    ⟨"B", "Drugs", "Possession", [3, 2]⟩]⟩

/-- An event trace: select borough A, open the dashboard, clear the
borough, pick a major category (the callback fires but takes the guard
path, so the category selection survives), then select borough B. -/
def demoTrace : List UIEvent :=
  [.selectBorough (some ("A")), .clickButton, .selectBorough none,
   .selectCategory (some ("Theft")), .selectBorough (some ("B"))]

/-! ### C8, C3, C2, C6, C9, C10 -/

/-- Claim C8: `melt_crime_data` maps the `None` input to `None` unchanged,
propagating the missing-data state without raising. -/
theorem melt_crime_data_none : melt_crime_data none = none :=
  rfl

/-- Claim C3 at its failing input: `load_crime_data` returns `None` for an
absent and for an empty file, and `load_geojson` returns `None` for an
absent file, but on an empty file `load_geojson` raises (`json.load` fails
with `JSONDecodeError` and only `FileNotFoundError` is caught), contradicting
its own docstring (`None` if there was an error). -/
theorem load_geojson_empty_file_raises :
    load_crime_data CsvFileState.absent = Except.ok none ∧
    load_crime_data CsvFileState.empty = Except.ok none ∧
    load_geojson GeoFileState.absent = Except.ok none ∧
    load_geojson GeoFileState.empty = Except.error PyError.jsonDecode :=
  ⟨rfl, rfl, rfl, rfl⟩

/-- Counterexample to claim C2: in the generic missing case (crime data
`None`, boundary data present) the placeholder message is
`Error: No data available`, not the `No data available` the claim
requires for that case. -/
theorem update_heatmap_generic_missing_counterexample :
    update_heatmap none (some demoGeo) 1 =
      HeatmapFigure.placeholderFig ("Error: No data available") ∧
    ("Error: No data available" : String) ≠ "No data available" := by
  constructor
  · rfl
  · decide

/-- Claim C2 as amended: whenever the crime dataset or the boundary dataset
is `None`, `update_heatmap` returns the placeholder figure built by
`empty_figure` with message exactly `Error: No data available`, in every
missing case (the string `No data available` is only the unused default
message of `empty_figure`). -/
theorem update_heatmap_missing_placeholder (cdf : Option (List LongRow))
    (gj : Option GeoJson) (n : Nat) (h : cdf = none ∨ gj = none) :
    update_heatmap cdf gj n = empty_figure ("Error: No data available") := by
  rcases h with rfl | rfl
  · cases gj <;> rfl
  · cases cdf <;> rfl

/-- Witness for `update_heatmap_missing_placeholder` at a concrete input. -/
theorem update_heatmap_missing_placeholder_witness :
    update_heatmap none (some demoGeo) 0 = empty_figure ("Error: No data available") :=
  update_heatmap_missing_placeholder none (some demoGeo) 0 (Or.inl rfl)

/-- Claim C6: when no borough is selected (the selection is falsy), the
callback returns exactly the guard tuple: graph container hidden, figure
slots untouched, empty category options, hidden dropdown — no aggregation
is computed and nothing is raised. -/
theorem update_graphs_no_borough (cdf : Option (List LongRow)) (n : Nat)
    (smc sb : Option String) (hb : truthy sb = false) :
    update_graphs_and_dropdown cdf n smc sb = guardOutput ∧
    guardOutput.containerStyle = Display.hidden ∧
    guardOutput.majorOptions = [] ∧
    guardOutput.dropdownStyle = Display.hidden := by
  refine ⟨?_, rfl, rfl, rfl⟩
  simp [update_graphs_and_dropdown, hb]

/-- Witness for `update_graphs_no_borough` at a concrete input. -/
theorem update_graphs_no_borough_witness :
    update_graphs_and_dropdown (some demoDf) 1 none none = guardOutput ∧
    guardOutput.containerStyle = Display.hidden ∧
    guardOutput.majorOptions = [] ∧
    guardOutput.dropdownStyle = Display.hidden :=
  update_graphs_no_borough (some demoDf) 1 none none rfl

/-- Claim C9: with a borough selected but no truthy major-category
selection, the breakdown slot of the callback output is the empty
`px.line()` figure: it carries no data rows, so no line is rendered. -/
theorem update_graphs_breakdown_empty (df : List LongRow) (n : Nat)
    (smc sb : Option String) (hn : n ≠ 0) (hb : truthy sb = true)
    (hc : truthy smc = false) :
    (update_graphs_and_dropdown (some df) n smc sb).breakdownFig = Upd.set [] := by
  simp [update_graphs_and_dropdown, hn, hb, hc]

/-- Witness for `update_graphs_breakdown_empty` at a concrete input. -/
theorem update_graphs_breakdown_empty_witness :
    (update_graphs_and_dropdown (some demoDf) 1 none (some ("A"))).breakdownFig =
      Upd.set [] :=
  update_graphs_breakdown_empty demoDf 1 none (some ("A")) (by decide) rfl rfl

/-- Claim C10: every run of the callback that takes the visible path
(button clicked, data present, truthy borough) returns `None` for the
major-crime dropdown value — including the run triggered by the user
selecting a major-crime category, so the selection is always reset. -/
theorem update_graphs_resets_dropdown_value (df : List LongRow) (n : Nat)
    (smc sb : Option String) (hn : n ≠ 0) (hb : truthy sb = true) :
    (update_graphs_and_dropdown (some df) n smc sb).dropdownValue =
      Upd.set none := by
  simp [update_graphs_and_dropdown, hn, hb]

/-- Witness for `update_graphs_resets_dropdown_value`, on the run triggered
by selecting the category itself. -/
theorem update_graphs_resets_dropdown_value_witness :
    (update_graphs_and_dropdown (some demoDf) 1 (some ("Theft")) (some ("A"))).dropdownValue =
      Upd.set none :=
  update_graphs_resets_dropdown_value demoDf 1 (some ("Theft")) (some ("A")) (by decide) rfl

/-! ### Deduplication and grouping lemmas -/

theorem mem_uniqueAux (l : List String) : ∀ (seen : List String) (a : String),
    a ∈ uniqueAux seen l ↔ a ∈ l ∧ a ∉ seen := by
  induction l with
  | nil =>
    intro seen a
    simp [uniqueAux]
  | cons x xs ih =>
    intro seen a
    by_cases hx : x ∈ seen
    · rw [uniqueAux, if_pos hx, ih]
      constructor
      · rintro ⟨h1, h2⟩
        exact ⟨List.mem_cons_of_mem _ h1, h2⟩
      · rintro ⟨h1, h2⟩
        rcases List.mem_cons.mp h1 with rfl | h1
        · exact absurd hx h2
        · exact ⟨h1, h2⟩
    · rw [uniqueAux, if_neg hx]
      simp only [List.mem_cons, ih, not_or]
      constructor
      · rintro (rfl | ⟨h1, h2, h3⟩)
        · exact ⟨Or.inl rfl, hx⟩
        · exact ⟨Or.inr h1, h3⟩
      · rintro ⟨rfl | h1, h2⟩
        · exact Or.inl rfl
        · by_cases hax : a = x
          · exact Or.inl hax
          · exact Or.inr ⟨h1, hax, h2⟩

theorem nodup_uniqueAux (l : List String) : ∀ seen : List String,
    (uniqueAux seen l).Nodup := by
  induction l with
  | nil =>
    intro seen
    simp [uniqueAux]
  | cons x xs ih =>
    intro seen
    by_cases hx : x ∈ seen
    · rw [uniqueAux, if_pos hx]
      exact ih seen
    · rw [uniqueAux, if_neg hx]
      refine List.nodup_cons.mpr ⟨?_, ih _⟩
      intro hmem
      rcases (mem_uniqueAux xs (x :: seen) x).mp hmem with ⟨-, h2⟩
      exact h2 (List.mem_cons_self x seen)

theorem mem_uniqueList (l : List String) (a : String) : a ∈ uniqueList l ↔ a ∈ l := by
  rw [uniqueList, mem_uniqueAux]
  simp

theorem nodup_uniqueList (l : List String) : (uniqueList l).Nodup :=
  nodup_uniqueAux l []

theorem groupSumBy_map_fst (key : LongRow → String) (df : List LongRow) :
    (groupSumBy key df).map Prod.fst = uniqueList (df.map key) := by
  rw [groupSumBy, List.map_map]
  have hc : (Prod.fst ∘ fun k =>
      (k, ((df.filter fun r => key r == k).map fun r => r.CrimeCount).sum)) =
      fun k : String => k := rfl
  rw [hc]
  exact List.map_id _

theorem groupSumBy_snd (key : LongRow → String) (df : List LongRow) (b : String)
    (v : Int) (h : (b, v) ∈ groupSumBy key df) :
    v = ((df.filter fun r => key r == b).map fun r => r.CrimeCount).sum := by
  rw [groupSumBy] at h
  rcases List.mem_map.mp h with ⟨k, hk, heq⟩
  have h1 : k = b := congrArg Prod.fst heq
  have h2 := congrArg Prod.snd heq
  subst h1
  exact h2.symm

/-! ### C7, C5, C4 -/

/-- Claim C7: with both datasets present, `update_heatmap` renders the long
table grouped by `BoroughName` with `CrimeCount` summed across all months
and categories: the summary has exactly one entry per distinct borough of
the table (no duplicates, none missing), and each entry carries that
borough's total count. -/
theorem update_heatmap_groups_by_borough (df : List LongRow) (gj : GeoJson) (n : Nat) :
    update_heatmap (some df) (some gj) n =
      HeatmapFigure.choropleth (groupSumBy (fun r => r.BoroughName) df) ∧
    ((groupSumBy (fun r => r.BoroughName) df).map Prod.fst).Nodup ∧
    (∀ b, b ∈ (groupSumBy (fun r => r.BoroughName) df).map Prod.fst ↔
      b ∈ df.map fun r => r.BoroughName) ∧
    ∀ b v, (b, v) ∈ groupSumBy (fun r => r.BoroughName) df →
      v = ((df.filter fun r => r.BoroughName == b).map fun r => r.CrimeCount).sum := by
  refine ⟨rfl, ?_, ?_, ?_⟩
  · rw [groupSumBy_map_fst]
    exact nodup_uniqueList _
  · intro b
    rw [groupSumBy_map_fst, mem_uniqueList]
  · intro b v h
    exact groupSumBy_snd _ _ _ _ h

/-- Witness for `update_heatmap_groups_by_borough` on concrete data. -/
theorem update_heatmap_groups_by_borough_witness :
    update_heatmap (some demoDf) (some demoGeo) 1 =
      HeatmapFigure.choropleth (groupSumBy (fun r => r.BoroughName) demoDf) ∧
    (8 : Int) =
      ((demoDf.filter fun r => r.BoroughName == "A").map fun r => r.CrimeCount).sum :=
  ⟨(update_heatmap_groups_by_borough demoDf demoGeo 1).1,
   (update_heatmap_groups_by_borough demoDf demoGeo 1).2.2.2 ("A") 8 (by decide)⟩

/-- Claim C5: with data present and a borough selected, the callback's
major-category options are exactly the distinct `MajorCrimeCategory` values
of the rows filtered to that borough: duplicate-free, and a category is
offered iff some row of that borough carries it. -/
theorem update_graphs_dropdown_options (df : List LongRow) (n : Nat)
    (smc : Option String) (b : String) (hn : n ≠ 0) (hb : b ≠ "")
    (hmem : b ∈ df.map fun r => r.BoroughName) :
    ((update_graphs_and_dropdown (some df) n smc (some b)).majorOptions).Nodup ∧
    ∀ c, c ∈ (update_graphs_and_dropdown (some df) n smc (some b)).majorOptions ↔
      ∃ r ∈ df, r.BoroughName = b ∧ r.MajorCrimeCategory = c := by
  have hb' : truthy (some b) = true := by
    simp [truthy, hb]
  have hopts : (update_graphs_and_dropdown (some df) n smc (some b)).majorOptions =
      uniqueList ((df.filter fun r => r.BoroughName == b).map fun r => r.MajorCrimeCategory) := by
    simp [update_graphs_and_dropdown, hn, hb']
  refine ⟨?_, ?_⟩
  · rw [hopts]
    exact nodup_uniqueList _
  · intro c
    rw [hopts, mem_uniqueList]
    simp only [List.mem_map, List.mem_filter, beq_iff_eq]
    constructor
    · rintro ⟨r, ⟨hr, hrb⟩, hrc⟩
      exact ⟨r, hr, hrb, hrc⟩
    · rintro ⟨r, hr, hrb, hrc⟩
      exact ⟨r, ⟨hr, hrb⟩, hrc⟩

/-- Witness for `update_graphs_dropdown_options` on concrete data. -/
theorem update_graphs_dropdown_options_witness :
    ((update_graphs_and_dropdown (some demoDf) 1 none (some ("A"))).majorOptions).Nodup ∧
    ("Theft" ∈ (update_graphs_and_dropdown (some demoDf) 1 none (some ("A"))).majorOptions ↔
      ∃ r ∈ demoDf, r.BoroughName = "A" ∧ r.MajorCrimeCategory = "Theft") := by
  have h := update_graphs_dropdown_options demoDf 1 none ("A") (by decide) (by decide) (by decide)
  exact ⟨h.1, h.2 ("Theft")⟩

/-- Counterexample to claim C4: a trace in which the borough selection
changes (in the final step, from `none` to borough B) while the selected
major-category selection stays `Theft`.  Changing the borough fires no
callback at all — `borough-selection.value` is only a Dash `State` of
`update_graphs_and_dropdown` — so nothing clears the category dropdown. -/
theorem borough_change_keeps_category_counterexample :
    (uiRun (some demoDf) initState (demoTrace.take 4)).category = some ("Theft") ∧
    (uiRun (some demoDf) initState (demoTrace.take 4)).borough = none ∧
    (uiRun (some demoDf) initState demoTrace).borough = some ("B") ∧
    (uiRun (some demoDf) initState demoTrace).category = some ("Theft") := by
  decide

/-- Claim C4 as amended: changing the borough selection fires no callback
and by itself never clears the major-category selection (the category value
is left exactly as it was); the category selection is instead reset to
empty by the next callback run that takes the visible path, such as the
button click that renders the newly selected borough's charts. -/
theorem borough_change_reset_amended (df : List LongRow) (s : UIState)
    (b : Option String) (hb : truthy s.borough = true) :
    (uiStep (some df) s (.selectBorough b)).category = s.category ∧
    (uiStep (some df) s .clickButton).category = none := by
  constructor
  · rfl
  · simp [uiStep, applyOutput, update_graphs_and_dropdown, hb]

/-- Witness for `borough_change_reset_amended` on a concrete state. -/
theorem borough_change_reset_amended_witness :
    (uiStep (some demoDf) ⟨1, some ("A"), some ("Theft")⟩
      (.selectBorough (some ("B")))).category = some ("Theft") ∧
    (uiStep (some demoDf) ⟨1, some ("A"), some ("Theft")⟩ .clickButton).category = none :=
  borough_change_reset_amended demoDf ⟨1, some ("A"), some ("Theft")⟩ (some ("B")) rfl

/-! ### Reshaper lemmas -/

theorem sum_flatMap_int {α : Type} (l : List α) (f : α → List Int) :
    (l.flatMap f).sum = (l.map fun a => (f a).sum).sum := by
  induction l with
  | nil => simp
  | cons x xs ih => simp [List.flatMap_cons, List.sum_append, ih]

theorem sum_map_add_int {α : Type} (l : List α) (f g : α → Int) :
    (l.map fun a => f a + g a).sum = (l.map f).sum + (l.map g).sum := by
  induction l with
  | nil => simp
  | cons x xs ih =>
    simp only [List.map_cons, List.sum_cons, ih]
    ring

theorem sum_map_comm_int {α β : Type} (l1 : List α) (l2 : List β) (g : α → β → Int) :
    (l1.map fun a => (l2.map (g a)).sum).sum =
      (l2.map fun b => (l1.map fun a => g a b).sum).sum := by
  induction l1 with
  | nil =>
    simp only [List.map_nil, List.sum_nil]
    symm
    exact List.sum_eq_zero (by simp)
  | cons x xs ih =>
    rw [List.map_cons, List.sum_cons, ih, ← sum_map_add_int]
    simp [List.map_cons, List.sum_cons]

theorem range_map_getD (l : List Int) :
    (List.range l.length).map (fun j => l.getD j 0) = l := by
  induction l with
  | nil => simp
  | cons x xs ih =>
    rw [List.length_cons, List.range_succ_eq_map, List.map_cons, List.map_map]
    have hc : ((fun j => (x :: xs).getD j 0) ∘ Nat.succ) = fun j => xs.getD j 0 := by
      funext j
      simp [Function.comp, List.getD_cons_succ]
    rw [List.getD_cons_zero, hc, ih]

theorem length_flatMap_const {α β : Type} (c : Nat) :
    ∀ (l : List α) (f : α → List β), (∀ a ∈ l, (f a).length = c) →
      (l.flatMap f).length = l.length * c := by
  intro l
  induction l with
  | nil =>
    intro f _
    simp
  | cons x xs ih =>
    intro f h
    rw [List.flatMap_cons, List.length_append, h x (List.mem_cons_self x xs),
      ih f (fun a ha => h a (List.mem_cons_of_mem x ha)), List.length_cons]
    ring

/-- The long rows that belong to identifier tuple `(b, mc, cs)`. -/
def keyMatchLong (b mc cs : String) (lr : LongRow) : Bool :=
  lr.BoroughName == b && lr.MajorCrimeCategory == mc && lr.CrimeSubcategory == cs

/-- The wide rows that belong to identifier tuple `(b, mc, cs)`. -/
def keyMatchWide (b mc cs : String) (r : WideRow) : Bool :=
  r.BoroughName == b && r.MajorCrimeCategory == mc && r.CrimeSubcategory == cs

theorem enum_map_getD_sum (months : List String) (cl : List Int)
    (hcl : cl.length = months.length) :
    (months.enum.map fun p => cl.getD p.1 0).sum = cl.sum := by
  calc (months.enum.map fun p => cl.getD p.1 0).sum
      = ((months.enum.map Prod.fst).map fun j => cl.getD j 0).sum := by
        rw [List.map_map]
        rfl
    _ = ((List.range months.length).map fun j => cl.getD j 0).sum := by
        rw [List.enum_map_fst]
    _ = cl.sum := by
        rw [← hcl, range_map_getD]

theorem melt_sum_key (t : WideTable) (hv : t.valid) (b mc cs : String) :
    (((meltRows t).filter (keyMatchLong b mc cs)).map fun lr => lr.CrimeCount).sum =
      ((t.rows.filter (keyMatchWide b mc cs)).map fun r => r.counts.sum).sum := by
  rw [meltRows, List.filter_flatMap, List.map_flatMap, sum_flatMap_int]
  have hblock : ∀ p : Nat × String,
      ((List.filter (keyMatchLong b mc cs)
          (t.rows.map fun r =>
            ({ BoroughName := r.BoroughName, MajorCrimeCategory := r.MajorCrimeCategory,
               CrimeSubcategory := r.CrimeSubcategory, Month := p.2,
               CrimeCount := r.counts.getD p.1 0 } : LongRow))).map
        fun lr => lr.CrimeCount).sum =
      ((t.rows.filter (keyMatchWide b mc cs)).map fun r => r.counts.getD p.1 0).sum := by
    intro p
    rw [List.filter_map, List.map_map]
    rfl
  rw [List.map_congr_left fun p _ => hblock p, sum_map_comm_int]
  apply congrArg List.sum
  apply List.map_congr_left
  intro r hr
  exact enum_map_getD_sum t.months r.counts (hv r (List.mem_filter.mp hr).1)

/-! ### C1 -/

/-- Claim C1: for every valid wide-format crime table, `melt_crime_data`
produces a long table with (wide rows) × (month columns) rows, and for
every identifier tuple the sum of `CrimeCount` over its long-format rows
equals the sum of that tuple's month-column values in the wide table. -/
theorem melt_crime_data_reshape (t : WideTable) (hv : t.valid) :
    melt_crime_data (some t) = some (meltRows t) ∧
    (meltRows t).length = t.rows.length * t.months.length ∧
    ∀ b mc cs,
      (((meltRows t).filter (keyMatchLong b mc cs)).map fun lr => lr.CrimeCount).sum =
        ((t.rows.filter (keyMatchWide b mc cs)).map fun r => r.counts.sum).sum := by
  refine ⟨rfl, ?_, fun b mc cs => melt_sum_key t hv b mc cs⟩
  rw [meltRows,
    length_flatMap_const t.rows.length t.months.enum _ (fun p _ => List.length_map _ _),
    List.enum_length, Nat.mul_comm]

/-- Witness for `melt_crime_data_reshape` on a concrete valid wide table. -/
theorem melt_crime_data_reshape_witness :
    melt_crime_data (some demoWide) = some (meltRows demoWide) ∧
    (meltRows demoWide).length = demoWide.rows.length * demoWide.months.length ∧
    (((meltRows demoWide).filter (keyMatchLong ("A") ("Theft") ("Shoplifting"))).map
        fun lr => lr.CrimeCount).sum =
      ((demoWide.rows.filter (keyMatchWide ("A") ("Theft") ("Shoplifting"))).map
        fun r => r.counts.sum).sum := by
  have h := melt_crime_data_reshape demoWide (by decide)
  exact ⟨h.1, h.2.1, h.2.2 ("A") ("Theft") ("Shoplifting")⟩
